import Mathlib

/-!
Verification of the GeneDose pharmacogenomic decision pipeline.

Shallow embedding of the core services:
* `backend/services/star_allele_caller.py` (diplotype calling, CNV
  adjustment, activity score, phenotype mapping),
* `backend/services/cpic_engine.py` (guideline rule resolution),
* `backend/services/vcf_processor.py` (header validation, region
  extraction, quality assessment).

Conventions of the embedding:
* Python strings are Lean `String`; Python floats that carry exact decimal
  constants are `ℚ`;
* a Python `dict` with a known key set is a structure whose optional keys
  are `Option` fields; an `Optional[...]`/possibly-falsy dict parameter is
  `Option` of that structure (with `none` standing for `None` or an empty,
  falsy dict);
* heterogeneous dict values (PharmCAT metadata) are the `PyVal` inductive;
* a Python function that can raise is `Except String`; the message keeps
  the source's f-string text (dynamic exception details such as a wrapped
  lower-level error text are dropped from the message).
-/

/-! ### Python string helpers -/

/-- Python `\s` characters (space, tab, newline, return, vertical tab, form feed). -/
def isPySpace (c : Char) : Bool :=
  c == ' ' || c == '\t' || c == '\n' || c == '\r' || c == '\x0b' || c == '\x0c'

/-- Python `str.lower()` (ASCII-adequate for the strings this code handles). -/
def pyLower (s : String) : String :=
  ⟨s.data.map Char.toLower⟩

/-- Python `str.capitalize()`: first character uppercased, the rest lowercased. -/
def pyCapitalize (s : String) : String :=
  match s.data with
  | [] => ""
  | c :: cs => ⟨c.toUpper :: cs.map Char.toLower⟩

/-- Python `str.strip()`: remove leading and trailing whitespace. -/
def pyStrip (s : String) : String :=
  ⟨(((s.data.dropWhile isPySpace).reverse.dropWhile isPySpace).reverse)⟩

/-- `matchesAt pat l`: `pat` occurs at the head of `l`. -/
def matchesAt : List Char → List Char → Bool
  | [], _ => true
  | _ :: _, [] => false
  | p :: ps, c :: cs => p == c && matchesAt ps cs

/-- Python `s.startswith(pre)` (same semantics as `String.startsWith`,
defined over the character data so that proofs can evaluate it). -/
def pyStartsWith (s pre : String) : Bool :=
  matchesAt pre.data s.data

/-- `containsSeq pat l`: `pat` occurs contiguously somewhere in `l`. -/
def containsSeq (pat : List Char) : List Char → Bool
  | [] => pat.isEmpty
  | c :: cs => matchesAt pat (c :: cs) || containsSeq pat cs

/-- Python `pat in hay` on strings (substring containment). -/
def pyContains (hay pat : String) : Bool :=
  containsSeq pat.data hay.data

/-- Python `str(v)` for an `Optional[int]` value, as an f-string renders it. -/
def pyOptIntStr (v : Option Int) : String :=
  match v with
  | some n => toString n
  | none => "None"

/-- Accumulator worker for `str.split("/")`. -/
def splitSlashAux : List Char → List Char → List (List Char)
  | [], acc => [acc.reverse]
  | c :: cs, acc =>
    if c == '/' then acc.reverse :: splitSlashAux cs []
    else splitSlashAux cs (c :: acc)

/-- Python `s.split("/")`. -/
def pySplitSlash (s : String) : List String :=
  (splitSlashAux s.data []).map fun l => ⟨l⟩

/-! ### Shared value model -/

/-- Heterogeneous Python dict values appearing in caller metadata. -/
inductive PyVal where
  | str (s : String)
  | bool (b : Bool)
  | int (n : Int)
  deriving DecidableEq, Repr

/-- Risk categories of `backend/models/analysis.py::RiskCategory`. -/
inductive RiskCategory where
  | safe
  | adjust
  | toxic
  | ineffective
  | unknown
  deriving DecidableEq, Repr

/-- Severity levels of `backend/models/schema.py::SeverityLevel`. -/
inductive SeverityLevel where
  | none
  | low
  | moderate
  | high
  | critical
  deriving DecidableEq, Repr

/--
The CYP2D6 CNV dict built by `VCFProcessor.process_bytes` and consumed by
`StarAlleleCaller` (`available`, `deletion_detected`, `duplication_detected`,
`copy_number`, `evidence`). `copy_number := none` models an absent
`copy_number` key, `copy_number := some none` the key holding Python `None`
(the shape `process_bytes` always emits when no CN tag was resolved, since
`CNVCall.copy_number` is `Optional[int]`), and `copy_number := some (some n)`
the key holding the integer `n`. With this encoding, Python's
`d.get("copy_number", dflt)` is `copy_number.getD (some dflt)`.
-/
structure CNVDict where
  available : Bool
  deletion_detected : Bool
  duplication_detected : Bool
  copy_number : Option (Option Int)
  evidence : List String := []
  deriving DecidableEq, Repr

/-- `star_allele_caller.py::DiplotypeCall`. -/
structure DiplotypeCall where
  gene : String
  diplotype : String
  allele1 : String
  allele2 : String
  confidence : ℚ
  pharmcat_metadata : List (String × PyVal)
  deriving DecidableEq, Repr

/-! ### StarAlleleCaller static tables (transcribed from the source) -/

/-- `StarAlleleCaller.ACTIVITY_SCORES`. -/
def ACTIVITY_SCORES : List (String × List (String × ℚ)) :=
  [ ("CYP2D6",
      [("*1", 1.0), ("*2", 1.0), ("*4", 0.0), ("*5", 0.0), ("*10", 0.25),
       ("*17", 0.5), ("*41", 0.25), ("*45", 0.0), ("*1xN", 2.0), ("*2xN", 2.0)]),
    ("CYP2C19",
      [("*1", 1.0), ("*2", 0.0), ("*3", 0.0), ("*17", 2.0)]),
    ("CYP2C9",
      [("*1", 1.0), ("*2", 0.12), ("*3", 0.05)]),
    ("SLCO1B1",
      [("*1", 1.0), ("*5", 0.2), ("*15", 0.2), ("*17", 0.4)]),
    ("TPMT",
      [("*1", 1.0), ("*2", 0.0), ("*3A", 0.0), ("*3B", 0.0), ("*3C", 0.0)]),
    ("DPYD",
      [("*1", 1.0), ("*2A", 0.0), ("*2B", 0.0), ("*13", 0.0), ("*9A", 0.5)]) ]

/-- `StarAlleleCaller.PHENOTYPE_RANGES` (label, min score, max score; dict order). -/
def PHENOTYPE_RANGES : List (String × List (String × ℚ × ℚ)) :=
  [ ("CYP2D6",
      [("Poor Metabolizer", 0.0, 0.5), ("Intermediate Metabolizer", 0.51, 1.0),
       ("Normal Metabolizer", 1.01, 2.0), ("Ultra Rapid Metabolizer", 2.01, 4.0)]),
    ("CYP2C19",
      [("Poor Metabolizer", 0.0, 0.0), ("Intermediate Metabolizer", 0.01, 1.0),
       ("Normal Metabolizer", 1.01, 2.0), ("Ultra Rapid Metabolizer", 2.01, 4.0)]),
    ("CYP2C9",
      [("Poor Metabolizer", 0.0, 0.1), ("Intermediate Metabolizer", 0.11, 0.5),
       ("Normal Metabolizer", 0.51, 2.0)]),
    ("SLCO1B1",
      [("Poor Function", 0.0, 0.5), ("Decreased Function", 0.51, 1.0),
       ("Normal Function", 1.01, 2.0)]),
    ("TPMT",
      [("Poor Metabolizer", 0.0, 0.0), ("Intermediate Metabolizer", 0.01, 0.5),
       ("Normal Metabolizer", 0.51, 2.0)]),
    ("DPYD",
      [("Poor Metabolizer", 0.0, 0.0), ("Intermediate Metabolizer", 0.01, 0.5),
       ("Normal Metabolizer", 0.51, 2.0)]) ]

/-- `StarAlleleCaller.DIPLOTYPE_TO_PHENOTYPE`. -/
def DIPLOTYPE_TO_PHENOTYPE : List (String × List (String × String)) :=
  [ ("CYP2D6",
      [("*4/*4", "Poor Metabolizer"), ("*1/*4", "Intermediate Metabolizer"),
       ("*1/*1", "Normal Metabolizer"), ("*1/*2xN", "Ultra Rapid Metabolizer")]),
    ("CYP2C19",
      [("*1/*1", "Normal Metabolizer"), ("*1/*2", "Intermediate Metabolizer"),
       ("*2/*2", "Poor Metabolizer"), ("*1/*17", "Rapid Metabolizer")]),
    ("CYP2C9",
      [("*1/*1", "Normal Metabolizer"), ("*1/*2", "Intermediate Metabolizer"),
       ("*2/*2", "Poor Metabolizer")]),
    ("SLCO1B1",
      [("*1/*1", "Normal Function"), ("*1/*5", "Decreased Function"),
       ("*5/*5", "Poor Function")]),
    ("TPMT",
      [("*1/*1", "Normal"), ("*1/*3A", "Intermediate"), ("*3A/*3A", "Poor")]),
    ("DPYD",
      [("*1/*1", "Normal"), ("*1/*2A", "Intermediate"), ("*2A/*2A", "Poor")]) ]

/-! ### StarAlleleCaller operations -/

/-- Python `{**m, k: v}`: update `k` in place if present, else append. -/
def pyDictSet (m : List (String × PyVal)) (k : String) (v : PyVal) :
    List (String × PyVal) :=
  if (m.map Prod.fst).contains k then
    m.map fun p => if p.1 == k then (p.1, v) else p
  else m ++ [(k, v)]

/-- `StarAlleleCaller._get_mock_diplotype`: the fixed per-gene mock table. -/
def mockDiplotypes : List (String × (String × String)) :=
  [ ("CYP2D6", ("*4", "*4")), ("CYP2C19", ("*2", "*2")), ("CYP2C9", ("*2", "*2")),
    ("SLCO1B1", ("*5", "*5")), ("TPMT", ("*3A", "*3A")), ("DPYD", ("*2A", "*2A")) ]

/-- `StarAlleleCaller._get_mock_diplotype`. -/
def getMockDiplotype (gene : String) : DiplotypeCall :=
  let p := (List.lookup gene mockDiplotypes).getD ("*1", "*1")
  { gene := gene
    diplotype := p.1 ++ "/" ++ p.2
    allele1 := p.1
    allele2 := p.2
    confidence := 0.925
    pharmcat_metadata :=
      [("mocked", .bool true), ("reason", .str "Docker unavailable or PharmCAT failed")] }

/-- `StarAlleleCaller._adjust_cyp2d6_cnv`. -/
def adjustCyp2d6Cnv (diplotype : DiplotypeCall) (cyp2d6_cnv : CNVDict) :
    DiplotypeCall :=
  if !cyp2d6_cnv.available then
    diplotype   -- CNV unavailable, handled in phenotype determination
  else if cyp2d6_cnv.deletion_detected then
    -- Gene deletion -> *5/*5 (no function)
    { gene := diplotype.gene
      diplotype := "*5/*5"
      allele1 := "*5"
      allele2 := "*5"
      confidence := diplotype.confidence
      pharmcat_metadata := pyDictSet diplotype.pharmcat_metadata "cnv_adjusted" (.str "deletion") }
  else if cyp2d6_cnv.duplication_detected then
    let copy_num : Option Int := cyp2d6_cnv.copy_number.getD (some 3)
    let base_allele0 := if diplotype.allele1 != "*5" then diplotype.allele1 else diplotype.allele2
    let base_allele := if base_allele0 == "*5" then "*1" else base_allele0
    let dup_allele := base_allele ++ "xN"
    { gene := diplotype.gene
      diplotype := base_allele ++ "/" ++ dup_allele
      allele1 := base_allele
      allele2 := dup_allele
      confidence := diplotype.confidence
      pharmcat_metadata :=
        pyDictSet diplotype.pharmcat_metadata "cnv_adjusted"
          (.str ("duplication_" ++ pyOptIntStr copy_num)) }
  else
    diplotype

/--
`StarAlleleCaller.calculate_activity_score`. In the CYP2D6 duplication
branch the source computes
`copy_num = cyp2d6_cnv.get("copy_number", 2) if cyp2d6_cnv else 2` and then
`base_score * copy_num`; when the dict carries the `copy_number` key with
value `None` (the shape the pipeline's CNV dict always has when no CN tag
was resolved), `copy_num` is `None` and the multiplication raises
`TypeError` — modelled as the `.error` result. Every other path returns a
score.
-/
def calculateActivityScore (gene : String) (diplotype : DiplotypeCall)
    (cyp2d6_cnv : Option CNVDict) : Except String ℚ :=
  let scores := (List.lookup gene ACTIVITY_SCORES).getD []
  let allele1_score := (List.lookup diplotype.allele1 scores).getD 0.0
  let allele2_score := (List.lookup diplotype.allele2 scores).getD 0.0
  -- Handle CNV duplications (e.g., *1xN)
  if gene == "CYP2D6" && pyContains diplotype.allele2 "xN" then
    let base_allele := diplotype.allele1
    let base_score := (List.lookup base_allele scores).getD 1.0
    let copy_num : Option Int := match cyp2d6_cnv with
      | some cnv => cnv.copy_number.getD (some 2)
      | none => some 2
    match copy_num with
    | some n => .ok (base_score * (n : ℚ))
    | none =>
      .error "TypeError: unsupported operand type(s) for *: 'float' and 'NoneType'"
  else
    .ok (allele1_score + allele2_score)

/-- First range whose `[min, max]` interval contains the score wins (dict order). -/
def findRange : List (String × ℚ × ℚ) → ℚ → Option String
  | [], _ => none
  | (phenotype, min_score, max_score) :: rest, s =>
    if min_score ≤ s ∧ s ≤ max_score then some phenotype else findRange rest s

/--
The score-based tail of `StarAlleleCaller.determine_phenotype`: per-gene
`PHENOTYPE_RANGES` first, then the generic fallback bands (never "Unknown").
-/
def scoreFallback (gene : String) (activity_score : ℚ) : String :=
  let ranges := (List.lookup gene PHENOTYPE_RANGES).getD []
  match findRange ranges activity_score with
  | some phenotype => phenotype
  | none =>
    if activity_score ≤ 0.25 then "Poor Metabolizer"
    else if activity_score ≤ 1.0 then "Intermediate Metabolizer"
    else if activity_score ≤ 2.0 then "Normal Metabolizer"
    else if activity_score ≤ 3.0 then "Rapid Metabolizer"
    else "Ultra Rapid Metabolizer"

/--
The explicit-mapping step of `StarAlleleCaller.determine_phenotype` against
one gene's curated table: exact diplotype-string lookup, then the
allele-swapped lookup (`parts[1] + "/" + parts[0]`) when the string contains
a slash.
-/
def dtpLookup (tbl : List (String × String)) (diplotype_str : String) :
    Option String :=
  match List.lookup diplotype_str tbl with
  | some phenotype => some phenotype
  | none =>
    -- Check swapped match (e.g., *4/*1 instead of *1/*4)
    if diplotype_str.data.contains '/' then
      let parts := pySplitSlash diplotype_str
      let swapped := parts.getD 1 "" ++ "/" ++ parts.getD 0 ""
      List.lookup swapped tbl
    else none

set_option linter.unusedVariables false in
/--
`StarAlleleCaller.determine_phenotype`. The `cyp2d6_cnv` branch at the top of
the source method is a `pass` (it deliberately falls through), so the
parameter does not influence the result; it is kept for signature fidelity.
-/
def determinePhenotype (gene : String) (activity_score : ℚ)
    (cyp2d6_cnv : Option CNVDict := none) (diplotype_str : String := "") : String :=
  -- Check explicit mapping first
  match List.lookup gene DIPLOTYPE_TO_PHENOTYPE with
  | some tbl =>
    match dtpLookup tbl diplotype_str with
    | some phenotype => phenotype
    | none => scoreFallback gene activity_score
  | none => scoreFallback gene activity_score

/--
Swap-compatibility of a curated diplotype table: any two keys that are
allele-swaps of each other map to the same phenotype. Each table in
`DIPLOTYPE_TO_PHENOTYPE` satisfies this (checked by `decide` in the proofs).
-/
def swapCompat (tbl : List (String × String)) : Prop :=
  ∀ p ∈ tbl, ∀ q ∈ tbl,
    pySplitSlash p.1 = (pySplitSlash q.1).reverse → p.2 = q.2

instance (tbl : List (String × String)) : Decidable (swapCompat tbl) := by
  unfold swapCompat
  infer_instance

/-! ### PharmCAT invocation model (for `call_diplotype_strict`) -/

/-- Confidence value as found in PharmCAT JSON: a number or a non-numeric value. -/
inductive ConfVal where
  | num (q : ℚ)
  | nonNum
  deriving DecidableEq, Repr

/-- The per-gene object of a PharmCAT JSON result (the keys the parser reads). -/
structure PharmcatGeneData where
  diplotype : Option String
  confidence : Option ConfVal
  raw : List (String × PyVal) := []
  deriving DecidableEq, Repr

/-- A parsed PharmCAT JSON document: its `genes` mapping. A gene mapped to
`none`-like falsy data is modelled by absence from the list. -/
structure PharmcatJson where
  genes : List (String × PharmcatGeneData)
  deriving DecidableEq, Repr

/--
Environment of one `_run_pharmcat_docker` invocation: whether `docker` is on
`PATH`, whether the input VCF exists, the container exit code, and the parsed
JSON files found in the output directory (in glob order).
-/
structure PharmcatEnv where
  dockerOnPath : Bool
  vcfExists : Bool
  exitCode : Int
  jsonOutputs : List PharmcatJson
  deriving Repr

/-- `StarAlleleCaller._run_pharmcat_docker` (every raise is `PharmCATFailureError`). -/
def runPharmcatDocker (env : PharmcatEnv) (gene : String) : Except String PharmcatJson :=
  if !env.vcfExists then
    .error "VCF file not found"
  else if env.exitCode != 0 then
    .error ("PharmCAT execution failed for " ++ gene)
  else
    match env.jsonOutputs with
    | [] => .error ("PharmCAT completed but no JSON output found for " ++ gene)
    | j :: _ => .ok j

/-- `StarAlleleCaller._parse_pharmcat_diplotype` (every raise is `PharmCATFailureError`). -/
def parsePharmcatDiplotype (pharmcat_json : PharmcatJson) (gene : String) :
    Except String DiplotypeCall :=
  match List.lookup gene pharmcat_json.genes with
  | none => .error ("PharmCAT output missing gene data for " ++ gene)
  | some gene_data =>
    match gene_data.diplotype with
    | none => .error ("PharmCAT output missing diplotype for " ++ gene)
    | some diplotype_str =>
      if diplotype_str == "" then
        .error ("PharmCAT output missing diplotype for " ++ gene)
      else
        let parts := pySplitSlash diplotype_str
        if parts.length != 2 then
          .error ("Invalid diplotype format from PharmCAT: " ++ diplotype_str)
        else
          let allele1 := pyStrip (parts.getD 0 "")
          let allele2 := pyStrip (parts.getD 1 "")
          let confidence : ℚ := match gene_data.confidence with
            | some (.num q) => if 0.0 ≤ q ∧ q ≤ 1.0 then q else 0.95
            | some .nonNum => 0.95
            | none => 0.95
          .ok { gene := gene
                diplotype := diplotype_str
                allele1 := allele1
                allele2 := allele2
                confidence := confidence
                pharmcat_metadata := gene_data.raw }

/--
`StarAlleleCaller.call_diplotype_strict`. The `try` block raises only
`PharmCATFailureError`, and the `except` clause catches exactly that error and
substitutes the mock diplotype, so the embedded function is total: it never
propagates a caller failure.
-/
def callDiplotypeStrict (env : PharmcatEnv) (gene : String)
    (cyp2d6_cnv : Option CNVDict := none) : DiplotypeCall :=
  let attempt : Except String DiplotypeCall :=
    if !env.dockerOnPath then
      .error "Docker is required for PharmCAT execution but is not installed."
    else
      match runPharmcatDocker env gene with
      | .error e => .error e
      | .ok j => parsePharmcatDiplotype j gene
  let diplotype := match attempt with
    | .ok d => d
    | .error _ => getMockDiplotype gene
  -- For CYP2D6, adjust for CNV if available
  match cyp2d6_cnv with
  | some cnv => if gene == "CYP2D6" then adjustCyp2d6Cnv diplotype cnv else diplotype
  | none => diplotype

/-! ### CPICRecommendationEngine -/

/-- `CPICRecommendationEngine.PHENOTYPE_RISKS` (the explicit override table). -/
def PHENOTYPE_RISKS : List (String × List (String × RiskCategory)) :=
  [ ("codeine",
      [("Poor Metabolizer", .ineffective), ("Intermediate Metabolizer", .adjust),
       ("Normal Metabolizer", .safe), ("Ultra Rapid Metabolizer", .toxic)]),
    ("warfarin",
      [("Poor Metabolizer", .toxic), ("Intermediate Metabolizer", .adjust),
       ("Normal Metabolizer", .safe)]),
    ("clopidogrel",
      [("Poor Metabolizer", .ineffective), ("Intermediate Metabolizer", .adjust),
       ("Normal Metabolizer", .safe), ("Rapid Metabolizer", .safe)]),
    ("simvastatin",
      [("Poor Function", .toxic), ("Decreased Function", .adjust),
       ("Normal", .safe), ("Normal Function", .safe)]),
    ("azathioprine",
      [("Poor", .toxic), ("Intermediate", .adjust), ("Normal", .safe)]),
    ("fluorouracil",
      [("Poor", .toxic), ("Intermediate", .adjust), ("Normal", .safe)]) ]

/-- Override-table lookup: drug key (already lowercased) then phenotype. -/
def phenotypeRiskLookup (drug_query_lower phenotype_code : String) :
    Option RiskCategory :=
  (List.lookup drug_query_lower PHENOTYPE_RISKS).bind
    fun tbl => List.lookup phenotype_code tbl

/-- `CPICRecommendationEngine.RISK_TO_SEVERITY`. -/
def RISK_TO_SEVERITY : RiskCategory → SeverityLevel
  | .safe => .none
  | .adjust => .moderate
  | .toxic => .high
  | .ineffective => .high
  | .unknown => .moderate

/-- A row of the `drugs` table (`backend/models/schema.py::Drug`), as read by
the engine: `aliases := []` also covers a SQL `NULL` (`d.aliases or []`). -/
structure DrugRow where
  id : Nat
  generic_name : String
  aliases : List String
  is_active : Bool
  deriving DecidableEq, Repr

/-- A row of `cpic_rules` (`backend/models/schema.py::CPICRule`), the columns
the engine reads. `dose_adjustment := none` covers SQL `NULL`. -/
structure CPICRuleRow where
  risk_label : RiskCategory
  severity : SeverityLevel
  recommendation_text : String
  dose_adjustment : Option String
  evidence_level : String
  citations : Option (List String)
  deriving Repr

/--
The database visible to `_resolve_cpic_rule`: the `drugs` table in query
order, and the joined `cpic_rules` lookup keyed by
(gene symbol, drug id, phenotype code) returning the first matching rule.
-/
structure RuleDB where
  drugs : List DrugRow
  findRule : String → Nat → String → Option CPICRuleRow

/-- The dict returned by `_resolve_cpic_rule` on success. -/
structure ResolvedRule where
  drug : String
  gene : String
  level : String
  recommendation : String
  action : String
  risk_category : RiskCategory
  citations : List String
  severity : SeverityLevel
  contraindication : Bool
  deriving DecidableEq, Repr

/--
`CPICRecommendationEngine._resolve_cpic_rule`. Mirrors the source:
drug resolution over active drugs (generic name, then aliases,
case-insensitively; Python's falsy test on `target_drug_id` also rejects a
drug whose id is `0`), then the rule query; an override entry replaces the
rule's risk/severity; with no rule, an override entry yields the stub result.
-/
def resolveCpicRule (db : RuleDB) (gene_symbol drug_query phenotype_code : String) :
    Option ResolvedRule :=
  let drug_query_lower := pyLower drug_query
  let drugs := db.drugs.filter (·.is_active)
  let target := drugs.find? fun d =>
    pyLower d.generic_name == drug_query_lower
      || (d.aliases.map pyLower).contains drug_query_lower
  match target with
  | none => none  -- Drug totally unsupported
  | some d =>
    if d.id == 0 then none  -- `if not target_drug_id` is also true for id 0
    else
      match db.findRule gene_symbol d.id phenotype_code with
      | none =>
        match phenotypeRiskLookup drug_query_lower phenotype_code with
        | some risk =>
          some { drug := if d.generic_name == "" then pyCapitalize drug_query
                         else d.generic_name
                 gene := gene_symbol
                 level := "B"
                 recommendation :=
                   "Explicit mapping applied for " ++ phenotype_code ++ " phenotype."
                 action := "Adjust according to risk level."
                 risk_category := risk
                 citations := []
                 severity := RISK_TO_SEVERITY risk
                 contraindication := risk == .toxic }
        | none => none
      | some rule =>
        let rs : RiskCategory × SeverityLevel :=
          match phenotypeRiskLookup drug_query_lower phenotype_code with
          | some risk => (risk, RISK_TO_SEVERITY risk)
          | none => (rule.risk_label, rule.severity)
        some { drug := d.generic_name
               gene := gene_symbol
               level := rule.evidence_level
               recommendation := rule.recommendation_text
               action := match rule.dose_adjustment with
                 | some a => if a == "" then "Clinical judgment required" else a
                 | none => "Clinical judgment required"
               risk_category := rs.1
               citations := rule.citations.getD []
               severity := rs.2
               contraindication := rs.1 == .toxic }

/-! ### VCFProcessor -/

/-- `vcf_processor.py::GeneRegion` (`end` is a Lean keyword, hence `end_`). -/
structure GeneRegion where
  gene : String
  chrom : String
  start : Nat
  end_ : Nat
  deriving DecidableEq, Repr

/-- `VCFProcessor.SUPPORTED_GENE_REGIONS`. -/
def SUPPORTED_GENE_REGIONS : List GeneRegion :=
  [ ⟨"CYP2D6", "22", 42526217, 42530591⟩,
    ⟨"CYP2C19", "10", 96541611, 96590712⟩,
    ⟨"CYP2C9", "10", 96791608, 96854123⟩,
    ⟨"SLCO1B1", "12", 21234867, 21347871⟩,
    ⟨"TPMT", "6", 18129462, 18141174⟩,
    ⟨"DPYD", "1", 97586408, 97923791⟩ ]

/--
`_FILEFORMAT_RE` applied to one line: the regex
`^##fileformat=VCFv(4\.1|4\.2)\s*$`.
-/
def fileformatReMatch (l : String) : Bool :=
  (pyStartsWith l "##fileformat=VCFv4.1"
      && ((l.data.drop "##fileformat=VCFv4.1".data.length).all isPySpace))
    || (pyStartsWith l "##fileformat=VCFv4.2"
      && ((l.data.drop "##fileformat=VCFv4.2".data.length).all isPySpace))

/--
The header lines `_strict_validate_header` collects from the file's lines
(newlines already stripped): at most 5000 reads, stopping at end of file or at
the first line that does not start with `#`.
-/
def headerLinesOf (lines : List String) : List String :=
  (lines.take 5000).takeWhile (pyStartsWith · "#")

/--
`VCFProcessor._strict_validate_header`, from the file's decoded lines.
Returns `(genome_build, fileformat_version)` or the `VCFValidationError`
message.
-/
def strictValidateHeader (lines : List String) : Except String (String × String) :=
  let header_lines := headerLinesOf lines
  let fileformat_lines := header_lines.filter (pyStartsWith · "##fileformat=")
  if fileformat_lines.isEmpty then
    .error "Missing required VCF header: ##fileformat=VCFv4.1 or VCFv4.2"
  else if !(fileformat_lines.any fileformatReMatch) then
    .error "Unsupported VCF fileformat header(s). Only VCFv4.1/VCFv4.2 accepted."
  else
    let fileformat := if fileformat_lines.any (fun l => pyContains l "VCFv4.2")
      then "VCFv4.2" else "VCFv4.1"
    let ref_lines := header_lines.filter (pyStartsWith · "##reference=")
    match ref_lines with
    | [] =>
      .error "Missing ##reference= header; genome build is unknown and is rejected in strict mode."
    | r :: _ =>
      let ref := pyLower r
      if pyContains ref "grch38" || pyContains ref "hg38" then
        .ok ("GRCh38", fileformat)
      else if pyContains ref "grch37" || pyContains ref "hg19" then
        .ok ("GRCh37", fileformat)
      else
        .error ("Unsupported/unknown reference in header: " ++ r)

/-- A `pysam.VariantRecord` as read by the extraction loop. -/
structure VariantRec where
  id : Option String
  chrom : String
  pos : Int
  ref : String
  alts : List String
  qual : Option ℚ
  filter : List String
  info : List (String × PyVal)
  deriving Repr

/-- The per-variant dict built by `_extract_supported_gene_variants_strict`. -/
structure VariantOut where
  rsid : Option String
  chrom : String
  pos : Int
  ref : String
  alt : List String
  qual : Option ℚ
  filter : List String
  info : List (String × PyVal)
  gene_info_GENE : Option PyVal
  gene_info_STAR : Option PyVal
  deriving Repr

/-- The dict entry for one fetched record (rsID: falsy or "." becomes `None`). -/
def variantToOut (rec : VariantRec) : VariantOut :=
  { rsid := match rec.id with
      | some s => if s == "" || s == "." then none else some s
      | none => none
    chrom := rec.chrom
    pos := rec.pos
    ref := rec.ref
    alt := rec.alts
    qual := rec.qual
    filter := rec.filter
    info := rec.info
    gene_info_GENE := List.lookup "GENE" rec.info
    gene_info_STAR := List.lookup "STAR" rec.info }

/--
A tabix `fetch` oracle: `fetch chrom start0 end` is `none` when pysam raises
(missing contig or index for that name) and `some records` when the query
succeeds, `start0` being the 0-based start the source passes (`start - 1`).
-/
def FetchFn : Type := String → Nat → Nat → Option (List VariantRec)

/-- The `VCFValidationError` message for an unqueryable region (the source
appends the wrapped pysam error text after it). -/
def missingCoverageMsg (gene : String) : String :=
  "Gene region " ++ gene ++ " is not queryable in this VCF (missing contig or index)."

/--
The body of the `_extract_supported_gene_variants_strict` loop for one region:
try the plain contig name, then the `chr`-prefixed one; fail naming the gene
when neither is queryable; an empty result is only logged, not failed.
-/
def extractRegion (fetch : FetchFn) (region : GeneRegion) :
    Except String (List VariantOut) :=
  let fetched := match fetch region.chrom (region.start - 1) region.end_ with
    | some recs => some recs
    | none => fetch ("chr" ++ region.chrom) (region.start - 1) region.end_
  match fetched with
  | none => .error (missingCoverageMsg region.gene)
  | some recs => .ok (recs.map variantToOut)

/-- The sequential region loop of `_extract_supported_gene_variants_strict`
over a region list: the first unqueryable region's error aborts the whole
extraction. -/
def extractRegions (fetch : FetchFn) : List GeneRegion →
    Except String (List (String × List VariantOut))
  | [] => .ok []
  | r :: rest =>
    match extractRegion fetch r with
    | .error e => .error e
    | .ok vs =>
      match extractRegions fetch rest with
      | .error e => .error e
      | .ok m => .ok ((r.gene, vs) :: m)

/-- `VCFProcessor._extract_supported_gene_variants_strict`. -/
def extractSupportedGeneVariantsStrict (fetch : FetchFn) :
    Except String (List (String × List VariantOut)) :=
  extractRegions fetch SUPPORTED_GENE_REGIONS

/-- The quality dict of `_assess_quality`. -/
structure QualityOut where
  variant_count : Nat
  high_quality_ratio : ℚ
  non_pass_filter_ratio : ℚ
  multiallelic_ratio : ℚ
  quality_score : ℚ
  deriving Repr

/--
`VCFProcessor._assess_quality` over the full record stream of the normalized
file: a zero-variant file is a hard `VCFValidationError`.
-/
def assessQuality (recs : List VariantRec) : Except String QualityOut :=
  let total := recs.length
  let qual_ok := (recs.filter fun r => match r.qual with
    | some q => decide (30 ≤ q)
    | none => false).length
  let missing_filter := (recs.filter fun r =>
    !r.filter.isEmpty && r.filter.any (· != "PASS")).length
  let multiallelic := (recs.filter fun r => decide (1 < r.alts.length)).length
  if total == 0 then
    .error "VCF contains zero variants after normalization; analysis cannot proceed."
  else
    let qual_ratio : ℚ := (qual_ok : ℚ) / (total : ℚ)
    let filter_ratio : ℚ := (missing_filter : ℚ) / (total : ℚ)
    let mult_ratio : ℚ := (multiallelic : ℚ) / (total : ℚ)
    let quality_score : ℚ :=
      max 0.0 (min 100.0
        (qual_ratio * 60.0 + (1.0 - filter_ratio) * 25.0 + (1.0 - mult_ratio) * 15.0))
    .ok { variant_count := total
          high_quality_ratio := qual_ratio
          non_pass_filter_ratio := filter_ratio
          multiallelic_ratio := mult_ratio
          quality_score := quality_score }

/-! ### Spec-side definitions for the activity-score claim (C5) -/

/-- Per-gene table score of one allele with the claim's convention: an allele
absent from the table scores `0.0`. -/
def tableScoreZeroDefault (gene allele : String) : ℚ :=
  (List.lookup allele ((List.lookup gene ACTIVITY_SCORES).getD [])).getD 0.0

/-- The CNV copy number as the claim words it: the explicitly known copy
number when there is one, otherwise 2. -/
def cnvCopyNumber (cyp2d6_cnv : Option CNVDict) : Int :=
  match cyp2d6_cnv with
  | some cnv =>
    match cnv.copy_number with
    | some (some n) => n
    | _ => 2
  | none => 2

/--
The activity score exactly as the claim words it: the sum of the two alleles'
per-gene table scores, any allele absent from the table scoring 0.0, except
that for a CYP2D6 diplotype whose second allele is a duplicated ("xN") allele
the score is the base allele's table score times the CNV copy number
(defaulting to 2 when not explicitly known).
-/
def claimedActivityScore (gene : String) (diplotype : DiplotypeCall)
    (cyp2d6_cnv : Option CNVDict) : ℚ :=
  if gene = "CYP2D6" ∧ pyContains diplotype.allele2 "xN" = true then
    tableScoreZeroDefault gene diplotype.allele1 * (cnvCopyNumber cyp2d6_cnv : ℚ)
  else
    tableScoreZeroDefault gene diplotype.allele1
      + tableScoreZeroDefault gene diplotype.allele2

/--
The amended activity-score statement: as `claimedActivityScore`, except
that in the CYP2D6 duplication branch (i) a base allele absent from the
table scores `1.0` (the source's `scores.get(base_allele, 1.0)` default)
instead of `0.0`, and (ii) the copy number defaults to 2 only when the CNV
dict is absent/falsy or lacks the `copy_number` key; a `copy_number` key
explicitly present with a null value makes the computation fail with a
`TypeError` instead of defaulting.
-/
def amendedActivityScore (gene : String) (diplotype : DiplotypeCall)
    (cyp2d6_cnv : Option CNVDict) : Except String ℚ :=
  if gene = "CYP2D6" ∧ pyContains diplotype.allele2 "xN" = true then
    let copy_num : Option Int := match cyp2d6_cnv with
      | some cnv => cnv.copy_number.getD (some 2)
      | none => some 2
    match copy_num with
    | some n =>
      .ok ((List.lookup diplotype.allele1
          ((List.lookup gene ACTIVITY_SCORES).getD [])).getD 1.0 * (n : ℚ))
    | none =>
      .error "TypeError: unsupported operand type(s) for *: 'float' and 'NoneType'"
  else
    .ok (tableScoreZeroDefault gene diplotype.allele1
      + tableScoreZeroDefault gene diplotype.allele2)

/-- The concrete phenotype vocabulary this pipeline can emit. -/
def phenotypeLabels : List String :=
  [ "Poor Metabolizer", "Intermediate Metabolizer", "Normal Metabolizer",
    "Rapid Metabolizer", "Ultra Rapid Metabolizer",
    "Poor Function", "Decreased Function", "Normal Function",
    "Normal", "Intermediate", "Poor" ]

/-! ### Helper lemmas -/

theorem mem_of_lookup_eq_some {α β : Type} [BEq α] [LawfulBEq α] {k : α} {v : β} :
    ∀ {l : List (α × β)}, List.lookup k l = some v → (k, v) ∈ l := by
  intro l
  induction l with
  | nil => intro h; simp [List.lookup] at h
  | cons p rest ih =>
    obtain ⟨a, b⟩ := p
    intro h
    rw [List.lookup] at h
    by_cases hk : k == a
    · rw [hk] at h
      simp only [Option.some.injEq] at h
      have hka : k = a := eq_of_beq hk
      rw [hka, h]
      exact List.mem_cons_self _ _
    · rw [Bool.not_eq_true] at hk
      rw [hk] at h
      exact List.mem_cons_of_mem _ (ih h)

theorem matchesAt_self_append (pat rest : List Char) :
    matchesAt pat (pat ++ rest) = true := by
  induction pat with
  | nil => rfl
  | cons c cs ih => simp [matchesAt, ih]

theorem containsSeq_of_matchesAt {pat l : List Char} (h : matchesAt pat l = true) :
    containsSeq pat l = true := by
  cases l with
  | nil =>
    cases pat with
    | nil => rfl
    | cons c cs => simp [matchesAt] at h
  | cons c cs => simp [containsSeq, h]

theorem containsSeq_cons {pat l : List Char} (c : Char)
    (h : containsSeq pat l = true) : containsSeq pat (c :: l) = true := by
  simp [containsSeq, h]

theorem containsSeq_pre_self (pat post : List Char) :
    ∀ pre : List Char, containsSeq pat (pre ++ pat ++ post) = true := by
  intro pre
  induction pre with
  | nil =>
    simp only [List.nil_append]
    exact containsSeq_of_matchesAt (matchesAt_self_append pat post)
  | cons c cs ih =>
    simp only [List.cons_append] at ih ⊢
    exact containsSeq_cons c ih

theorem pyContains_mid (pre mid post : String) :
    pyContains (pre ++ mid ++ post) mid = true := by
  unfold pyContains
  rw [String.data_append, String.data_append]
  exact containsSeq_pre_self mid.data post.data pre.data

theorem splitSlashAux_no_slash {a : List Char} (h : '/' ∉ a) :
    ∀ acc, splitSlashAux a acc = [acc.reverse ++ a] := by
  induction a with
  | nil => intro acc; simp [splitSlashAux]
  | cons c cs ih =>
    intro acc
    have hc : c ≠ '/' := fun hc => h (hc ▸ List.mem_cons_self c cs)
    have hcs : '/' ∉ cs := fun hm => h (List.mem_cons_of_mem c hm)
    rw [splitSlashAux]
    rw [if_neg (by simpa using hc)]
    rw [ih hcs (c :: acc)]
    simp

theorem splitSlashAux_split {a : List Char} (h : '/' ∉ a) (b : List Char) :
    ∀ acc, splitSlashAux (a ++ '/' :: b) acc
      = (acc.reverse ++ a) :: splitSlashAux b [] := by
  induction a with
  | nil =>
    intro acc
    rw [List.nil_append, splitSlashAux]
    simp
  | cons c cs ih =>
    intro acc
    have hc : c ≠ '/' := fun hc => h (hc ▸ List.mem_cons_self c cs)
    have hcs : '/' ∉ cs := fun hm => h (List.mem_cons_of_mem c hm)
    rw [List.cons_append, splitSlashAux]
    rw [if_neg (by simpa using hc)]
    rw [ih hcs (c :: acc)]
    simp

theorem pySplitSlash_pair {a b : String} (ha : '/' ∉ a.data) (hb : '/' ∉ b.data) :
    pySplitSlash (a ++ "/" ++ b) = [a, b] := by
  unfold pySplitSlash
  rw [String.data_append, String.data_append]
  have hslash : ("/" : String).data = ['/'] := rfl
  rw [hslash]
  rw [List.append_assoc, List.singleton_append]
  rw [splitSlashAux_split ha b.data []]
  rw [splitSlashAux_no_slash hb []]
  simp only [List.reverse_nil, List.nil_append, List.map]

theorem slash_mem_pair_data (a b : String) : '/' ∈ (a ++ "/" ++ b).data := by
  rw [String.data_append, String.data_append]
  refine List.mem_append.mpr (Or.inl (List.mem_append.mpr (Or.inr ?_)))
  show '/' ∈ ['/']
  exact List.mem_singleton_self '/'

theorem dtpLookup_swap (tbl : List (String × String)) (hcompat : swapCompat tbl)
    (a b : String) (ha : '/' ∉ a.data) (hb : '/' ∉ b.data) :
    dtpLookup tbl (a ++ "/" ++ b) = dtpLookup tbl (b ++ "/" ++ a) := by
  have hc1 : (a ++ "/" ++ b).data.contains '/' = true := by
    simp
  have hc2 : (b ++ "/" ++ a).data.contains '/' = true := by
    simp
  have hs1 : pySplitSlash (a ++ "/" ++ b) = [a, b] := pySplitSlash_pair ha hb
  have hs2 : pySplitSlash (b ++ "/" ++ a) = [b, a] := pySplitSlash_pair hb ha
  unfold dtpLookup
  rw [hc1, hc2, hs1, hs2]
  have hgd1 : [a, b].getD 1 "" = b := rfl
  have hgd0 : [a, b].getD 0 "" = a := rfl
  have hgd2 : [b, a].getD 1 "" = a := rfl
  have hgd3 : [b, a].getD 0 "" = b := rfl
  simp only [hgd1, hgd0, hgd2, hgd3]
  cases h1 : List.lookup (a ++ "/" ++ b) tbl with
  | none =>
    cases h2 : List.lookup (b ++ "/" ++ a) tbl with
    | none => simp [h1, h2]
    | some w => simp [h1, h2]
  | some v =>
    cases h2 : List.lookup (b ++ "/" ++ a) tbl with
    | none => simp [h1, h2]
    | some w =>
      simp only [h1, h2, if_true]
      have hv : v = w := by
        have hp := mem_of_lookup_eq_some h1
        have hq := mem_of_lookup_eq_some h2
        have := hcompat (a ++ "/" ++ b, v) hp (b ++ "/" ++ a, w) hq
        apply this
        rw [hs1, hs2]
        rfl
      rw [hv]

/-! ### Claim theorems -/

/--
C6: for every gene that has a curated diplotype-to-phenotype table and every
pair of (slash-free) alleles `A`, `B`, looking up the diplotype string
`"A/B"` and the swapped string `"B/A"` through the phenotype mapper yields
the identical phenotype label.
-/
theorem determinePhenotype_swap_invariant
    (gene : String) (score : ℚ) (cnv : Option CNVDict) (a b : String)
    (hg : (List.lookup gene DIPLOTYPE_TO_PHENOTYPE).isSome = true)
    (ha : '/' ∉ a.data) (hb : '/' ∉ b.data) :
    determinePhenotype gene score cnv (a ++ "/" ++ b)
      = determinePhenotype gene score cnv (b ++ "/" ++ a) := by
  obtain ⟨tbl, htbl⟩ := Option.isSome_iff_exists.mp hg
  have hmem : (gene, tbl) ∈ DIPLOTYPE_TO_PHENOTYPE := mem_of_lookup_eq_some htbl
  have hcompat : swapCompat tbl := by
    have hall : ∀ p ∈ DIPLOTYPE_TO_PHENOTYPE, swapCompat p.2 := by decide
    exact hall (gene, tbl) hmem
  unfold determinePhenotype
  rw [htbl]
  have hsw := dtpLookup_swap tbl hcompat a b ha hb
  simp only [hsw]

/--
Witness for C6 at a concrete input: CYP2D6, alleles `*1` and `*4`, score 0,
no CNV information.
-/
theorem determinePhenotype_swap_invariant_witness :
    determinePhenotype "CYP2D6" 0 none ("*1" ++ "/" ++ "*4")
      = determinePhenotype "CYP2D6" 0 none ("*4" ++ "/" ++ "*1") :=
  determinePhenotype_swap_invariant "CYP2D6" 0 none "*1" "*4"
    (by decide) (by decide) (by decide)

theorem findRange_mem {s : ℚ} {p : String} :
    ∀ {l : List (String × ℚ × ℚ)}, findRange l s = some p →
      ∃ lo hi, (p, lo, hi) ∈ l := by
  intro l
  induction l with
  | nil => intro h; simp [findRange] at h
  | cons q rest ih =>
    obtain ⟨lbl, lo, hi⟩ := q
    intro h
    rw [findRange] at h
    by_cases hc : lo ≤ s ∧ s ≤ hi
    · rw [if_pos hc] at h
      simp only [Option.some.injEq] at h
      exact ⟨lo, hi, by rw [h]; exact List.mem_cons_self _ _⟩
    · rw [if_neg hc] at h
      obtain ⟨lo2, hi2, hm⟩ := ih h
      exact ⟨lo2, hi2, List.mem_cons_of_mem _ hm⟩

theorem scoreFallback_mem_labels (gene : String) (s : ℚ) :
    scoreFallback gene s ∈ phenotypeLabels := by
  unfold scoreFallback
  have hbands : ∀ pr ∈ PHENOTYPE_RANGES, ∀ e ∈ pr.2, e.1 ∈ phenotypeLabels := by
    decide
  cases hlk : List.lookup gene PHENOTYPE_RANGES with
  | none =>
    simp only [hlk, Option.getD_none, findRange]
    split_ifs <;> decide
  | some rs =>
    simp only [hlk, Option.getD_some]
    cases hfr : findRange rs s with
    | none =>
      simp only [hfr]
      split_ifs <;> decide
    | some p =>
      simp only [hfr]
      obtain ⟨lo, hi, hm⟩ := findRange_mem hfr
      exact hbands (gene, rs) (mem_of_lookup_eq_some hlk) (p, lo, hi) hm

theorem dtpLookup_mem {tbl : List (String × String)} {d p : String}
    (h : dtpLookup tbl d = some p) : ∃ k, (k, p) ∈ tbl := by
  unfold dtpLookup at h
  cases hl : List.lookup d tbl with
  | some q =>
    rw [hl] at h
    simp only [Option.some.injEq] at h
    exact ⟨d, h ▸ mem_of_lookup_eq_some hl⟩
  | none =>
    rw [hl] at h
    by_cases hc : d.data.contains '/'
    · rw [if_pos hc] at h
      exact ⟨_, mem_of_lookup_eq_some h⟩
    · rw [if_neg hc] at h
      exact absurd h (by simp)

/--
C7: `determine_phenotype` is total and never yields "Unknown": for every
gene, activity score, CNV state (including unavailable CNV) and diplotype
string, the three-tier lookup (curated diplotype table, per-gene score
bands, generic score bands) produces one of the concrete phenotype labels,
and "Unknown" is not among them.
-/
theorem determinePhenotype_never_unknown :
    ∀ (gene : String) (score : ℚ) (cnv : Option CNVDict) (d : String),
      determinePhenotype gene score cnv d ∈ phenotypeLabels
        ∧ determinePhenotype gene score cnv d ≠ "Unknown" := by
  have hnotin : "Unknown" ∉ phenotypeLabels := by decide
  intro gene score cnv d
  have hmeml : determinePhenotype gene score cnv d ∈ phenotypeLabels := by
    unfold determinePhenotype
    have htblv : ∀ pr ∈ DIPLOTYPE_TO_PHENOTYPE, ∀ e ∈ pr.2,
        e.2 ∈ phenotypeLabels := by decide
    cases hg : List.lookup gene DIPLOTYPE_TO_PHENOTYPE with
    | none => exact scoreFallback_mem_labels gene score
    | some tbl =>
      cases hdl : dtpLookup tbl d with
      | none => simp only [hdl]; exact scoreFallback_mem_labels gene score
      | some p =>
        simp only [hdl]
        obtain ⟨k, hm⟩ := dtpLookup_mem hdl
        exact htblv (gene, tbl) (mem_of_lookup_eq_some hg) (k, p) hm
  exact ⟨hmeml, fun hcontra => hnotin (hcontra ▸ hmeml)⟩

/--
C5 counterexample. First divergence: for the CYP2D6 diplotype `*6/*1xN`
(base allele `*6` absent from the CYP2D6 activity table) with no CNV
information, the source computes `1.0 * 2 = 2.0` (the duplication branch
defaults a missing base allele to `1.0`), while the claim's convention
(absent allele scores `0.0`) predicts `0.0`. Second divergence: for
`*1/*1xN` with the pipeline's CNV dict carrying `copy_number: None` (copy
number not explicitly known), the source raises a `TypeError` instead of
defaulting the copy number to 2 as the claim states (which would give
`1.0 * 2 = 2.0`).
-/
theorem calculateActivityScore_absent_base_counterexample :
    calculateActivityScore "CYP2D6" ⟨"CYP2D6", "*6/*1xN", "*6", "*1xN", 1, []⟩ none
        = .ok 2
      ∧ claimedActivityScore "CYP2D6" ⟨"CYP2D6", "*6/*1xN", "*6", "*1xN", 1, []⟩ none = 0
      ∧ List.lookup "*6" ((List.lookup "CYP2D6" ACTIVITY_SCORES).getD []) = none
      ∧ (∃ e, calculateActivityScore "CYP2D6" ⟨"CYP2D6", "*1/*1xN", "*1", "*1xN", 1, []⟩
            (some ⟨true, false, true, some none, []⟩) = .error e)
      ∧ claimedActivityScore "CYP2D6" ⟨"CYP2D6", "*1/*1xN", "*1", "*1xN", 1, []⟩
          (some ⟨true, false, true, some none, []⟩) = 2 := by
  have hlk : List.lookup "*6" ((List.lookup "CYP2D6" ACTIVITY_SCORES).getD []) = none := by
    decide
  have hx : pyContains "*1xN" "xN" = true := by decide
  have hcond : (("CYP2D6" : String) == "CYP2D6" && pyContains "*1xN" "xN") = true := by
    decide
  refine ⟨?_, ?_, hlk, ?_, ?_⟩
  · have h1 : calculateActivityScore "CYP2D6" ⟨"CYP2D6", "*6/*1xN", "*6", "*1xN", 1, []⟩
        none = .ok ((1.0 : ℚ) * ((2 : Int) : ℚ)) := rfl
    rw [h1]
    simp only [Except.ok.injEq]
    norm_num
  · simp [claimedActivityScore, tableScoreZeroDefault, cnvCopyNumber, hlk, hx]
    norm_num
  · exact ⟨"TypeError: unsupported operand type(s) for *: 'float' and 'NoneType'",
      by simp only [calculateActivityScore, hcond, if_true, Option.getD_some]⟩
  · have h4 : claimedActivityScore "CYP2D6" ⟨"CYP2D6", "*1/*1xN", "*1", "*1xN", 1, []⟩
        (some ⟨true, false, true, some none, []⟩)
        = (1.0 : ℚ) * ((2 : Int) : ℚ) := rfl
    rw [h4]
    norm_num

/--
C5 (amended): the activity score is the sum of the two alleles' per-gene
table scores with any absent allele scoring 0.0, except that for a CYP2D6
diplotype whose second allele is a duplicated ("xN") allele the score is
the base (first) allele's table score — a base allele absent from the table
scoring 1.0 in this branch — multiplied by the CNV copy number; the copy
number defaults to 2 only when the CNV dict is absent/falsy or lacks the
`copy_number` key, while a `copy_number` key explicitly present with a null
value (the pipeline's representation of an unknown copy number) raises a
TypeError instead of defaulting.
-/
theorem calculateActivityScore_eq_amended :
    ∀ (gene : String) (d : DiplotypeCall) (cnv : Option CNVDict),
      calculateActivityScore gene d cnv = amendedActivityScore gene d cnv := by
  intro gene d cnv
  have hiff : ((gene == "CYP2D6" && pyContains d.allele2 "xN") = true)
      ↔ (gene = "CYP2D6" ∧ pyContains d.allele2 "xN" = true) := by
    simp
  unfold calculateActivityScore amendedActivityScore tableScoreZeroDefault
  by_cases hc : gene = "CYP2D6" ∧ pyContains d.allele2 "xN" = true
  · rw [if_pos (hiff.mpr hc), if_pos hc]
  · rw [if_neg (fun hh => hc (hiff.mp hh)), if_neg hc]

/--
C8: `_adjust_cyp2d6_cnv` contract — with unavailable CNV the input call
passes through unchanged; with deletion evidence the result is the
double-null pairing `*5/*5` with the reason recorded in metadata; with
duplication evidence (and no deletion) one allele is rewritten as an "xN"
duplicate of the non-`*5` base allele with the reason recorded; and in every
case the confidence field is unchanged from the input.
-/
theorem adjustCyp2d6Cnv_contract :
    ∀ (d : DiplotypeCall) (cnv : CNVDict),
      (cnv.available = false → adjustCyp2d6Cnv d cnv = d)
      ∧ (cnv.available = true → cnv.deletion_detected = true →
          adjustCyp2d6Cnv d cnv =
            { gene := d.gene, diplotype := "*5/*5", allele1 := "*5", allele2 := "*5",
              confidence := d.confidence,
              pharmcat_metadata :=
                pyDictSet d.pharmcat_metadata "cnv_adjusted" (.str "deletion") })
      ∧ (cnv.available = true → cnv.deletion_detected = false →
          cnv.duplication_detected = true →
          ∃ base : String, base ≠ "*5"
            ∧ adjustCyp2d6Cnv d cnv =
              { gene := d.gene, diplotype := base ++ "/" ++ (base ++ "xN"),
                allele1 := base, allele2 := base ++ "xN",
                confidence := d.confidence,
                pharmcat_metadata :=
                  pyDictSet d.pharmcat_metadata "cnv_adjusted"
                    (.str ("duplication_"
                      ++ pyOptIntStr (cnv.copy_number.getD (some 3)))) })
      ∧ (adjustCyp2d6Cnv d cnv).confidence = d.confidence := by
  intro d cnv
  refine ⟨?_, ?_, ?_, ?_⟩
  · intro h
    simp [adjustCyp2d6Cnv, h]
  · intro ha hd
    simp [adjustCyp2d6Cnv, ha, hd]
  · intro ha hd hdup
    refine ⟨if (if d.allele1 != "*5" then d.allele1 else d.allele2) == "*5" then "*1"
        else (if d.allele1 != "*5" then d.allele1 else d.allele2), ?_, ?_⟩
    · by_cases h0 : (if d.allele1 != "*5" then d.allele1 else d.allele2) == "*5"
      · rw [if_pos h0]
        decide
      · rw [if_neg h0]
        exact fun hcontra => h0 (by rw [hcontra]; rfl)
    · simp [adjustCyp2d6Cnv, ha, hd, hdup]
  · unfold adjustCyp2d6Cnv
    split_ifs <;> rfl

/--
Witness for C8 at a concrete input: an available deletion CNV rewrites a
`*1/*4` call to `*5/*5`, keeping the confidence.
-/
theorem adjustCyp2d6Cnv_contract_witness :
    adjustCyp2d6Cnv ⟨"CYP2D6", "*1/*4", "*1", "*4", 1, []⟩
        ⟨true, true, false, some (some 0), []⟩
      = ⟨"CYP2D6", "*5/*5", "*5", "*5", 1, [("cnv_adjusted", .str "deletion")]⟩ :=
  (adjustCyp2d6Cnv_contract ⟨"CYP2D6", "*1/*4", "*1", "*4", 1, []⟩
    ⟨true, true, false, some (some 0), []⟩).2.1 rfl rfl

/--
C1 (code bug): with Docker unavailable, `call_diplotype_strict` does not
fail the gene's analysis; it catches `PharmCATFailureError` and returns the
substituted mock diplotype (`*2/*2` for CYP2C9, confidence 0.925, flagged
`mocked` in metadata), contradicting the module's stated strict-mode
invariant.
-/
theorem callDiplotypeStrict_docker_missing_returns_mock :
    callDiplotypeStrict ⟨false, true, 0, []⟩ "CYP2C9" none
      = getMockDiplotype "CYP2C9"
      ∧ getMockDiplotype "CYP2C9"
        = { gene := "CYP2C9", diplotype := "*2/*2", allele1 := "*2", allele2 := "*2",
            confidence := 0.925,
            pharmcat_metadata :=
              [("mocked", .bool true),
               ("reason", .str "Docker unavailable or PharmCAT failed")] } :=
  ⟨rfl, rfl⟩

theorem extractRegions_mem {fetch : FetchFn} :
    ∀ {rs : List GeneRegion} {out : List (String × List VariantOut)},
      extractRegions fetch rs = .ok out →
      ∀ r ∈ rs, ∃ vs, extractRegion fetch r = .ok vs ∧ (r.gene, vs) ∈ out := by
  intro rs
  induction rs with
  | nil => intro out h r hr; simp at hr
  | cons r0 rest ih =>
    intro out h r hr
    rw [extractRegions] at h
    cases h0 : extractRegion fetch r0 with
    | error e => rw [h0] at h; simp at h
    | ok v0 =>
      rw [h0] at h
      cases hrest : extractRegions fetch rest with
      | error e => rw [hrest] at h; simp at h
      | ok m =>
        rw [hrest] at h
        simp only [Except.ok.injEq] at h
        rcases List.mem_cons.mp hr with hre | hrm
        · subst hre
          exact ⟨v0, h0, by rw [← h]; exact List.mem_cons_self _ _⟩
        · obtain ⟨vs, hvs, hm⟩ := ih hrest r hrm
          exact ⟨vs, hvs, by rw [← h]; exact List.mem_cons_of_mem _ hm⟩

theorem extractRegions_error_of_region_error {fetch : FetchFn} {e : String} :
    ∀ {rs : List GeneRegion} {r : GeneRegion}, r ∈ rs →
      extractRegion fetch r = .error e →
      ∃ e2, extractRegions fetch rs = .error e2 := by
  intro rs
  induction rs with
  | nil => intro r hr; simp at hr
  | cons r0 rest ih =>
    intro r hr he
    rcases List.mem_cons.mp hr with hre | hrm
    · subst hre
      exact ⟨e, by rw [extractRegions, he]⟩
    · cases h0 : extractRegion fetch r0 with
      | error e0 => exact ⟨e0, by rw [extractRegions, h0]⟩
      | ok v0 =>
        obtain ⟨e2, he2⟩ := ih hrm he
        exact ⟨e2, by rw [extractRegions, h0, he2]⟩

/--
C2: for each of the six supported gene regions — region extraction raises a
hard failure naming the gene when the region is queryable under neither
chromosome-naming convention (plain and "chr"-prefixed), the failure aborts
the whole extraction, and a queryable region with zero variants is not a
failure: it yields an empty variant list for that gene, also in the result
of the full extraction.
-/
theorem extractGeneVariants_strict_contract :
    SUPPORTED_GENE_REGIONS.length = 6
      ∧ ∀ (fetch : FetchFn), ∀ r ∈ SUPPORTED_GENE_REGIONS,
        (fetch r.chrom (r.start - 1) r.end_ = none →
          fetch ("chr" ++ r.chrom) (r.start - 1) r.end_ = none →
          extractRegion fetch r = .error (missingCoverageMsg r.gene)
            ∧ pyContains (missingCoverageMsg r.gene) r.gene = true
            ∧ ∃ e2, extractSupportedGeneVariantsStrict fetch = .error e2)
        ∧ (fetch r.chrom (r.start - 1) r.end_ = some [] →
            extractRegion fetch r = .ok [])
        ∧ (fetch r.chrom (r.start - 1) r.end_ = none →
            fetch ("chr" ++ r.chrom) (r.start - 1) r.end_ = some [] →
            extractRegion fetch r = .ok [])
        ∧ (∀ out, extractSupportedGeneVariantsStrict fetch = .ok out →
            ∃ vs, extractRegion fetch r = .ok vs ∧ (r.gene, vs) ∈ out) := by
  refine ⟨by decide, ?_⟩
  intro fetch r hr
  refine ⟨?_, ?_, ?_, ?_⟩
  · intro h1 h2
    have herr : extractRegion fetch r = .error (missingCoverageMsg r.gene) := by
      simp only [extractRegion, h1, h2]
    refine ⟨herr, ?_, ?_⟩
    · have : missingCoverageMsg r.gene
          = "Gene region " ++ r.gene
            ++ " is not queryable in this VCF (missing contig or index)." := rfl
      rw [this]
      exact pyContains_mid "Gene region " r.gene
        " is not queryable in this VCF (missing contig or index)."
    · exact extractRegions_error_of_region_error hr herr
  · intro h1
    simp only [extractRegion, h1, List.map_nil]
  · intro h1 h2
    simp only [extractRegion, h1, h2, List.map_nil]
  · intro out hout
    exact extractRegions_mem hout r hr

/--
Witness for C2 at concrete inputs: with no contig queryable, extracting the
CYP2D6 region fails with the message naming CYP2D6; with every region
queryable but empty, the CYP2D6 region yields an empty variant list.
-/
theorem extractGeneVariants_strict_contract_witness :
    extractRegion (fun _ _ _ => none) ⟨"CYP2D6", "22", 42526217, 42530591⟩
        = .error (missingCoverageMsg "CYP2D6")
      ∧ extractRegion (fun _ _ _ => some []) ⟨"CYP2D6", "22", 42526217, 42530591⟩
        = .ok [] := by
  constructor
  · exact (((extractGeneVariants_strict_contract.2 (fun _ _ _ => none)
      ⟨"CYP2D6", "22", 42526217, 42530591⟩ (by decide)).1 rfl rfl).1)
  · exact ((extractGeneVariants_strict_contract.2 (fun _ _ _ => some [])
      ⟨"CYP2D6", "22", 42526217, 42530591⟩ (by decide)).2.1 rfl)

/--
C10: the per-region "empty is fine" rule does not extend to a wholly empty
file — with every gene region queryable but containing no variants, the
strict extraction succeeds with an empty variant list for each of the six
genes, yet quality assessment of the zero-variant record stream raises the
validation failure that aborts the request.
-/
theorem zero_variant_file_fails_quality :
    extractSupportedGeneVariantsStrict (fun _ _ _ => some [])
      = .ok [("CYP2D6", []), ("CYP2C19", []), ("CYP2C9", []), ("SLCO1B1", []),
             ("TPMT", []), ("DPYD", [])]
      ∧ assessQuality []
        = .error "VCF contains zero variants after normalization; analysis cannot proceed." :=
  ⟨rfl, rfl⟩

/--
C3: for every result produced by the CPIC rule resolution — in both the
guideline-rule branch and the override-stub branch — the contraindication
flag is true if and only if the resolved risk category is toxic.
-/
theorem resolveCpicRule_contraindication_iff_toxic :
    ∀ (db : RuleDB) (gene drug phen : String) (res : ResolvedRule),
      resolveCpicRule db gene drug phen = some res →
      (res.contraindication = true ↔ res.risk_category = RiskCategory.toxic) := by
  intro db gene drug phen res h
  simp only [resolveCpicRule] at h
  cases hd : (db.drugs.filter (·.is_active)).find? fun d =>
      pyLower d.generic_name == pyLower drug
        || (d.aliases.map pyLower).contains (pyLower drug) with
  | none => rw [hd] at h; simp at h
  | some d =>
    simp only [hd] at h
    by_cases hz : d.id == 0
    · rw [if_pos hz] at h; simp at h
    · rw [if_neg hz] at h
      cases hrule : db.findRule gene d.id phen with
      | none =>
        simp only [hrule] at h
        cases hov : phenotypeRiskLookup (pyLower drug) phen with
        | none => simp only [hov] at h; simp at h
        | some risk =>
          simp only [hov, Option.some.injEq] at h
          rw [← h]
          simp
      | some rule =>
        simp only [hrule] at h
        cases hov : phenotypeRiskLookup (pyLower drug) phen with
        | none =>
          simp only [hov, Option.some.injEq] at h
          rw [← h]
          simp
        | some risk =>
          simp only [hov, Option.some.injEq] at h
          rw [← h]
          simp

/--
Witness for C3 at a concrete input: a database with codeine active and no
stored rule; the override stub for an Ultra Rapid Metabolizer resolves to a
toxic, contraindicated result.
-/
theorem resolveCpicRule_contraindication_iff_toxic_witness :
    ∃ res, resolveCpicRule ⟨[⟨1, "codeine", [], true⟩], fun _ _ _ => none⟩
        "CYP2D6" "codeine" "Ultra Rapid Metabolizer" = some res
      ∧ (res.contraindication = true ↔ res.risk_category = RiskCategory.toxic) := by
  cases hres : resolveCpicRule ⟨[⟨1, "codeine", [], true⟩], fun _ _ _ => none⟩
      "CYP2D6" "codeine" "Ultra Rapid Metabolizer" with
  | none => exact absurd hres (by decide)
  | some res =>
    exact ⟨res, rfl, resolveCpicRule_contraindication_iff_toxic
      ⟨[⟨1, "codeine", [], true⟩], fun _ _ _ => none⟩
      "CYP2D6" "codeine" "Ultra Rapid Metabolizer" res hres⟩

/--
C4: whenever the override table has an entry for the (lowercased) drug and
the phenotype, any resolved result carries the override's risk category and
the severity given by the fixed mapping safe→none, adjust→moderate,
toxic→high, ineffective→high, unknown→moderate — also when a guideline rule
for the triple exists in the store.
-/
theorem resolveCpicRule_override_wins :
    (∀ (db : RuleDB) (gene drug phen : String) (risk : RiskCategory)
        (res : ResolvedRule),
      phenotypeRiskLookup (pyLower drug) phen = some risk →
      resolveCpicRule db gene drug phen = some res →
      res.risk_category = risk ∧ res.severity = RISK_TO_SEVERITY risk)
      ∧ RISK_TO_SEVERITY .safe = .none
      ∧ RISK_TO_SEVERITY .adjust = .moderate
      ∧ RISK_TO_SEVERITY .toxic = .high
      ∧ RISK_TO_SEVERITY .ineffective = .high
      ∧ RISK_TO_SEVERITY .unknown = .moderate := by
  refine ⟨?_, rfl, rfl, rfl, rfl, rfl⟩
  intro db gene drug phen risk res hov h
  simp only [resolveCpicRule] at h
  cases hd : (db.drugs.filter (·.is_active)).find? fun d =>
      pyLower d.generic_name == pyLower drug
        || (d.aliases.map pyLower).contains (pyLower drug) with
  | none => rw [hd] at h; simp at h
  | some d =>
    simp only [hd] at h
    by_cases hz : d.id == 0
    · rw [if_pos hz] at h; simp at h
    · rw [if_neg hz] at h
      cases hrule : db.findRule gene d.id phen with
      | none =>
        simp only [hrule, hov, Option.some.injEq] at h
        rw [← h]
        exact ⟨rfl, rfl⟩
      | some rule =>
        simp only [hrule, hov, Option.some.injEq] at h
        rw [← h]
        exact ⟨rfl, rfl⟩

/--
Witness for C4 at a concrete input: warfarin with a stored guideline rule
saying safe/low for a Poor Metabolizer is still resolved to the override's
toxic/high.
-/
theorem resolveCpicRule_override_wins_witness :
    ∃ res, resolveCpicRule
        ⟨[⟨1, "warfarin", [], true⟩],
         fun _ _ _ => some ⟨.safe, .low, "ok", none, "A", none⟩⟩
        "CYP2C9" "warfarin" "Poor Metabolizer" = some res
      ∧ res.risk_category = RiskCategory.toxic
      ∧ res.severity = SeverityLevel.high := by
  cases hres : resolveCpicRule
      ⟨[⟨1, "warfarin", [], true⟩],
       fun _ _ _ => some ⟨.safe, .low, "ok", none, "A", none⟩⟩
      "CYP2C9" "warfarin" "Poor Metabolizer" with
  | none => exact absurd hres (by decide)
  | some res =>
    have h := resolveCpicRule_override_wins.1
      ⟨[⟨1, "warfarin", [], true⟩],
       fun _ _ _ => some ⟨.safe, .low, "ok", none, "A", none⟩⟩
      "CYP2C9" "warfarin" "Poor Metabolizer" RiskCategory.toxic res (by decide) hres
    exact ⟨res, rfl, h.1, h.2⟩

/--
C9: strict header validation fails when the `##fileformat` declaration is
missing, fails when no fileformat line names exactly VCFv4.1/VCFv4.2, fails
when no `##reference` declaration is present, only ever returns a build from
{GRCh38, GRCh37}, and hard-fails on a reference value that resolves to
neither build.
-/
theorem strictValidateHeader_contract :
    ∀ (lines : List String),
      ((headerLinesOf lines).filter (pyStartsWith · "##fileformat=") = [] →
        ∃ e, strictValidateHeader lines = Except.error e)
      ∧ ((∀ l ∈ (headerLinesOf lines).filter (pyStartsWith · "##fileformat="),
            fileformatReMatch l = false) →
          ∃ e, strictValidateHeader lines = Except.error e)
      ∧ ((headerLinesOf lines).filter (pyStartsWith · "##reference=") = [] →
          ∃ e, strictValidateHeader lines = Except.error e)
      ∧ (∀ b ff, strictValidateHeader lines = .ok (b, ff) →
          b = "GRCh38" ∨ b = "GRCh37")
      ∧ (∀ r rest,
          (headerLinesOf lines).filter (pyStartsWith · "##reference=") = r :: rest →
          pyContains (pyLower r) "grch38" = false →
          pyContains (pyLower r) "hg38" = false →
          pyContains (pyLower r) "grch37" = false →
          pyContains (pyLower r) "hg19" = false →
          ∃ e, strictValidateHeader lines = Except.error e) := by
  intro lines
  refine ⟨?_, ?_, ?_, ?_, ?_⟩
  · intro h1
    exact ⟨"Missing required VCF header: ##fileformat=VCFv4.1 or VCFv4.2",
      by simp [strictValidateHeader, h1]⟩
  · intro hall
    by_cases hff : (headerLinesOf lines).filter (pyStartsWith · "##fileformat=") = []
    · exact ⟨"Missing required VCF header: ##fileformat=VCFv4.1 or VCFv4.2",
        by simp [strictValidateHeader, hff]⟩
    · have hany : ((headerLinesOf lines).filter
          (pyStartsWith · "##fileformat=")).any fileformatReMatch = false := by
        rw [List.any_eq_false]
        intro x hx
        rw [hall x hx]
        simp
      exact ⟨"Unsupported VCF fileformat header(s). Only VCFv4.1/VCFv4.2 accepted.",
        by simp [strictValidateHeader, hany, hff]⟩
  · intro h3
    by_cases hff : (headerLinesOf lines).filter (pyStartsWith · "##fileformat=") = []
    · exact ⟨"Missing required VCF header: ##fileformat=VCFv4.1 or VCFv4.2",
        by simp [strictValidateHeader, hff]⟩
    · by_cases hany : ((headerLinesOf lines).filter
          (pyStartsWith · "##fileformat=")).any fileformatReMatch
      · exact ⟨"Missing ##reference= header; genome build is unknown and is rejected in strict mode.",
          by simp [strictValidateHeader, hff, hany, h3]⟩
      · rw [Bool.not_eq_true] at hany
        exact ⟨"Unsupported VCF fileformat header(s). Only VCFv4.1/VCFv4.2 accepted.",
          by simp [strictValidateHeader, hff, hany]⟩
  · intro b ff h
    simp only [strictValidateHeader] at h
    split at h
    · exact absurd h (by simp)
    · split at h
      · exact absurd h (by simp)
      · split at h
        · exact absurd h (by simp)
        · split at h
          · simp only [Except.ok.injEq, Prod.mk.injEq] at h
            exact Or.inl h.1.symm
          · split at h
            · simp only [Except.ok.injEq, Prod.mk.injEq] at h
              exact Or.inr h.1.symm
            · exact absurd h (by simp)
  · intro r rest h5 hg38 hh38 hg37 hh19
    by_cases hff : (headerLinesOf lines).filter (pyStartsWith · "##fileformat=") = []
    · exact ⟨"Missing required VCF header: ##fileformat=VCFv4.1 or VCFv4.2",
        by simp [strictValidateHeader, hff]⟩
    · by_cases hany : ((headerLinesOf lines).filter
          (pyStartsWith · "##fileformat=")).any fileformatReMatch
      · exact ⟨"Unsupported/unknown reference in header: " ++ r,
          by simp [strictValidateHeader, hff, hany, h5, hg38, hh38, hg37, hh19]⟩
      · rw [Bool.not_eq_true] at hany
        exact ⟨"Unsupported VCF fileformat header(s). Only VCFv4.1/VCFv4.2 accepted.",
          by simp [strictValidateHeader, hff, hany]⟩

/--
Witness for C9 at concrete inputs: a header with only `#CHROM` (no
fileformat declaration) is rejected, and a valid VCFv4.2/GRCh38 header
yields a build in {GRCh38, GRCh37}.
-/
theorem strictValidateHeader_contract_witness :
    (∃ e, strictValidateHeader ["#CHROM\tPOS"] = Except.error e)
      ∧ ("GRCh38" = "GRCh38" ∨ "GRCh38" = "GRCh37") := by
  constructor
  · exact (strictValidateHeader_contract ["#CHROM\tPOS"]).1 (by decide)
  · exact (strictValidateHeader_contract
      ["##fileformat=VCFv4.2", "##reference=GRCh38", "#CHROM"]).2.2.2.1
      "GRCh38" "VCFv4.2" rfl
